import Mathlib

/-!
Shallow embedding of the iGibson navigation environments in
`gibson2/envs/locomotor_env.py`: the episode state machine, the reward
shaping engine, the termination logic and the observation assembly of
`NavigateEnv`, `NavigateRandomEnv` and `InteractiveNavigateEnv`.

Modelling conventions:
* Python floats are modelled by exact rationals; decimal literals in the
  source (`0.2`, `0.1`, `-0.005`, `-0.01`, `-0.02`) become the
  corresponding rationals, and `np.pi` becomes the exact value of the
  IEEE-754 double nearest to pi (`np_pi` below).  The one claim that is
  stated over the real numbers (`wrap_to_pi`) is additionally modelled
  over `Real` with the mathematical pi.
* Exceptions (`raise`, failed `assert`) are modelled with `Except PyExc`.
* Physics readouts (robot pose, joint states, contact points, link
  states) are produced by the external physics engine; one control
  step's readout is a `Phys` value, and the contact tuples collected
  during the step's sub-ticks are a `List ContactEvent`.
* `l2_distance` and `rotate_vector_3d` live in `gibson2/utils/utils.py`,
  which is not part of the sources; `np.linalg.norm`, `np.cos`, `np.sin`
  are external numpy routines.  They are gathered in an `ExternalMath`
  record which every definition takes as an argument, so all theorems
  hold for every instantiation of these externals.
-/

/-- A 3-d point or vector, as produced by `get_position`,
`get_end_effector_position`, `p.getLinkState(...)[0]` and friends. -/
structure Vec3 where
  x : ℚ
  y : ℚ
  z : ℚ
deriving Repr, DecidableEq

/-- Componentwise difference of two 3-vectors (numpy array subtraction). -/
def Vec3.sub (a b : Vec3) : Vec3 :=
  ⟨a.x - b.x, a.y - b.y, a.z - b.z⟩

/-- Flatten a 3-vector into the list of its components (a numpy array of
shape (3,) viewed as a sequence). -/
def Vec3.toList (a : Vec3) : List ℚ :=
  [a.x, a.y, a.z]

/-- Python exceptions that the embedded code can raise. -/
inductive PyExc where
  | typeError (msg : String)
  | assertionError (msg : String)
deriving Repr, DecidableEq

/-- One contact tuple returned by `p.getContactPoints`.  pybullet returns
a 14-tuple; the source only ever reads indices 2 (`bodyUniqueIdB`),
3 (`linkIndexA`) and 4 (`linkIndexB`), or tests membership of the whole
tuple, so the remaining geometric entries are dropped and index 1
(`bodyUniqueIdA`) is kept for completeness together with index 0. -/
structure ContactEvent where
  flag : ℤ
  bodyA : ℤ
  bodyB : ℤ
  linkA : ℤ
  linkB : ℤ
deriving Repr, DecidableEq

/-- The two task kinds a config can select via `config['task']`. -/
inductive TaskKind where
  | pointgoal
  | reaching
deriving Repr, DecidableEq

/-- Observation channels relevant to the claims.  The imagery channels
(`rgb`, `depth`, `normal`, `seg`, `rgb_filled`) and the ray-cast `scan`
channel delegate to the external renderer / ray caster and are outside
the embedded core. -/
inductive Channel where
  | sensor
  | auxiliary_sensor
  | pointgoal
  | bump
deriving Repr, DecidableEq

/-- The sub-task stages of `InteractiveNavigateEnv`; the source encodes
them as the integers `stage_get_to_door_handle = 0`,
`stage_open_door = 1`, `stage_get_to_target_pos = 2`, and these are the
only values ever assigned to `self.stage`. -/
inductive Stage where
  | get_to_door_handle
  | open_door
  | get_to_target_pos
deriving Repr, DecidableEq

/-- The integer the source uses for a stage. -/
def Stage.idx : Stage → ℕ
  | .get_to_door_handle => 0
  | .open_door => 1
  | .get_to_target_pos => 2

/-- External numeric routines used by the environment:
Modelled from the spec: `l2_distance` and `rotate_vector_3d` are defined
in `gibson2/utils/utils.py`, which is not among the sources, and
`np.linalg.norm` / `np.cos` / `np.sin` belong to numpy.  The spec fixes
only their roles (a scalar distance between two points, a rotation of a
relative vector into the agent's local frame, a vector norm and the
trigonometric functions), so they are treated as an arbitrary record of
functions and every theorem is proved for all instantiations. -/
structure ExternalMath where
  l2_distance : Vec3 → Vec3 → ℚ
  rotate_vector_3d : Vec3 → ℚ → ℚ → ℚ → Vec3
  norm3 : Vec3 → ℚ
  cos : ℚ → ℚ
  sin : ℚ → ℚ

/-- The exact rational value of the IEEE-754 double `np.pi`. -/
def np_pi : ℚ := 884279719003555 / 281474976710656

/-- `np.clip(a, lo, hi)`: values below `lo` become `lo`, values above
`hi` become `hi`. -/
def np_clip (a lo hi : ℚ) : ℚ :=
  min (max a lo) hi

/-- `.mean()` of a numpy vector viewed as a list. -/
def listMean (l : List ℚ) : ℚ :=
  l.sum / (l.length : ℚ)

/-- Elementwise map of a list carrying the element index, used to model
numpy fancy indexing `states[indices] = f(states[indices])`. -/
def mapWithIndex (f : ℕ → ℚ → ℚ) : ℕ → List ℚ → List ℚ
  | _, [] => []
  | i, x :: xs => f i x :: mapWithIndex f (i + 1) xs

/-- `InteractiveNavigateEnv.wrap_to_pi` (lines 604-606) on the float
model: the entries at the selected indices are replaced by
`x - 2*pi*floor((x + pi) / (2*pi))`, the others are untouched. -/
def wrap_to_pi_q (states : List ℚ) (indices : List ℕ) : List ℚ :=
  mapWithIndex
    (fun i x => if i ∈ indices then x - np_pi * 2 * (⌊(x + np_pi) / (np_pi * 2)⌋ : ℚ) else x)
    0 states

/-- `InteractiveNavigateEnv.wrap_to_pi` (lines 604-606) read over the
real numbers with the mathematical pi, as the spec's claim about it is
stated: `x - 2*pi*floor((x + pi) / (2*pi))` for one selected entry. -/
noncomputable def wrap_to_pi (x : ℝ) : ℝ :=
  x - Real.pi * 2 * (⌊(x + Real.pi) / (Real.pi * 2)⌋ : ℤ)

/-- The per-episode configuration read in `NavigateEnv.load`
(lines 46-141) and `InteractiveNavigateEnv.__init__` (`door_angle`,
lines 495-496, already converted to the threshold
`-(door_angle/180)*pi`).  `max_step` keeps its configured numeric value;
`collision_links` defaults to `[-1]`. -/
structure Config where
  target_pos : Vec3
  dist_tol : ℚ
  max_step : ℚ
  success_reward : ℚ
  slack_reward : ℚ
  potential_reward_weight : ℚ
  electricity_reward_weight : ℚ
  stall_torque_reward_weight : ℚ
  collision_reward_weight : ℚ
  collision_links : List ℤ
  task : TaskKind
  additional_states_dim : ℕ
  auxiliary_sensor_dim : ℕ
  output : List Channel
  normalize_observation : Bool
  observation_normalizer : Channel → List ℚ × List ℚ
  door_angle : ℚ
  automatic_reset : Bool

/-- The physics readout visible to the environment after one control
step (or at reset): robot pose and joint state from `self.robots[0]`,
and door joint / link state from pybullet queries. -/
structure Phys where
  robot_pos : Vec3
  end_effector_pos : Vec3
  roll : ℚ
  pitch : ℚ
  yaw : ℚ
  joint_speeds : List ℚ
  joint_torque : List ℚ
  robot_state : List ℚ
  door_joint : ℚ
  door_joint_vel : ℚ
  door_handle_pos : Vec3
  door_body_id : ℤ
deriving Repr, DecidableEq

/-- The observation dictionary built by `get_state`, restricted to the
embedded channels; a `none` field is an absent key. -/
structure Observation where
  sensor : Option (List ℚ) := none
  auxiliary_sensor : Option (List ℚ) := none
  pointgoal : Option (List ℚ) := none
  bump : Option Bool := none
deriving Repr, DecidableEq

/-- The `info` dictionary produced by `get_termination` and `step`;
a `none` field is an absent key. -/
structure TermInfo where
  success : Option Bool := none
  episode_length : Option ℕ := none
  last_observation : Option Observation := none
deriving Repr, DecidableEq

/-- The potential-shaping bookkeeping owned by the episode:
`self.initial_potential` and `self.normalized_potential`. -/
structure PotentialState where
  initial_potential : ℚ
  normalized_potential : ℚ
deriving Repr, DecidableEq

/-- The stage-machine state owned by `InteractiveNavigateEnv`:
`self.stage`, `self.prev_stage` and the constraint handle `self.cid`
(`none` models Python `None`). -/
structure StageMachineState where
  stage : Stage
  prev_stage : Stage
  cid : Option ℕ
deriving Repr, DecidableEq

/-- `self.door_handle_link_id = 2` (line 497). -/
def door_handle_link_id : ℤ := 2

/-- `self.door_axis_link_id = 1` (line 498). -/
def door_axis_link_id : ℤ := 1

/-- `self.jr_end_effector_link_id = 34` (line 499). -/
def jr_end_effector_link_id : ℤ := 34

/-- The dimension bookkeeping `NavigateEnv.load` (lines 46-141) derives
from the config: it copies the configured dimensions, sets
`self.sensor_dim = self.additional_states_dim` and builds the `sensor`
observation space with shape `(sensor_dim,)`.  `load` performs no
consistency check between these dimensions and the state vector that
`get_additional_states` will later assemble. -/
structure LoadedParams where
  additional_states_dim : ℕ
  auxiliary_sensor_dim : ℕ
  sensor_dim : ℕ
  sensor_space_shape : ℕ
deriving Repr, DecidableEq

/-- The dimension-relevant part of `NavigateEnv.load`. -/
def NavigateEnv.load (cfg : Config) : LoadedParams :=
  { additional_states_dim := cfg.additional_states_dim
    auxiliary_sensor_dim := cfg.auxiliary_sensor_dim
    sensor_dim := cfg.additional_states_dim
    sensor_space_shape := cfg.additional_states_dim }

/-- `NavigateEnv.get_position_of_interest` (lines 343-347): the robot
base position for the `pointgoal` task, the end-effector position for
the `reaching` task. -/
def NavigateEnv.get_position_of_interest (cfg : Config) (phys : Phys) : Vec3 :=
  match cfg.task with
  | TaskKind.pointgoal => phys.robot_pos
  | TaskKind.reaching => phys.end_effector_pos

/-- `NavigateEnv.get_potential` (lines 349-350). -/
def NavigateEnv.get_potential (em : ExternalMath) (cfg : Config) (phys : Phys) : ℚ :=
  em.l2_distance cfg.target_pos (NavigateEnv.get_position_of_interest cfg phys)

/-- The state vector assembled by `NavigateEnv.get_additional_states`
(lines 226-235) before the dimension assertion: the relative target
position rotated into the body frame, extended by the relative
end-effector position for the `reaching` task. -/
def NavigateEnv.assembled_states (em : ExternalMath) (cfg : Config) (phys : Phys) : List ℚ :=
  let relative_position := Vec3.sub cfg.target_pos phys.robot_pos
  let additional_states :=
    (em.rotate_vector_3d relative_position phys.roll phys.pitch phys.yaw).toList
  if cfg.task = TaskKind.reaching then
    additional_states ++
      (em.rotate_vector_3d (Vec3.sub phys.end_effector_pos phys.robot_pos)
        phys.roll phys.pitch phys.yaw).toList
  else
    additional_states

/-- `NavigateEnv.get_additional_states` (lines 226-238): the assembled
vector guarded by
`assert len(additional_states) == self.additional_states_dim`. -/
def NavigateEnv.get_additional_states (em : ExternalMath) (cfg : Config) (phys : Phys) :
    Except PyExc (List ℚ) :=
  let additional_states := NavigateEnv.assembled_states em cfg phys
  if additional_states.length = cfg.additional_states_dim then
    .ok additional_states
  else
    .error (.assertionError "additional states dimension mismatch")

/-- `NavigateEnv.get_auxiliary_sensor` (lines 259-260): the body is
`raise np.array([])`; raising a value that is not a `BaseException`
makes the Python interpreter raise a `TypeError`, so the call never
returns a value. -/
def NavigateEnv.get_auxiliary_sensor : Except PyExc (List ℚ) :=
  .error (.typeError "exceptions must derive from BaseException")

/-- Python equality between the integer `-1` and a pybullet contact
tuple, as evaluated inside `-1 in collision_links` (line 291).  An `int`
never compares equal to a `tuple` in Python (both `__eq__` methods
return `NotImplemented`, so `==` is `False`), whatever the tuple holds. -/
def py_int_eq_contact (_n : ℤ) (_c : ContactEvent) : Bool := false

/-- Python membership test `n in collision_links` of an integer in a
list of contact tuples: `any` of the elementwise Python equalities. -/
def py_int_in_contacts (n : ℤ) (links : List ContactEvent) : Bool :=
  links.any (py_int_eq_contact n)

/-- The body of `NavigateEnv.get_state` (lines 262-334) restricted to
the embedded channels, parameterized over the `get_additional_states`
and `get_auxiliary_sensor` methods so that the dynamic dispatch to the
`InteractiveNavigateEnv` overrides is expressible.  Both methods are
called unconditionally before any channel is filled (lines 266-267);
the `bump` channel is `-1 in collision_links` (line 291). -/
def NavigateEnv.get_state_generic (sensor_src aux_src : Except PyExc (List ℚ))
    (output : List Channel) (collision_links : List ContactEvent) :
    Except PyExc Observation := do
  let sensor_state ← sensor_src
  let auxiliary_sensor ← aux_src
  let state : Observation := {}
  let state := if Channel.sensor ∈ output then
      { state with sensor := some sensor_state } else state
  let state := if Channel.auxiliary_sensor ∈ output then
      { state with auxiliary_sensor := some auxiliary_sensor } else state
  let state := if Channel.pointgoal ∈ output then
      { state with pointgoal := some (sensor_state.take 2) } else state
  let state := if Channel.bump ∈ output then
      { state with bump := some (py_int_in_contacts (-1) collision_links) } else state
  pure state

/-- `NavigateEnv.get_state` with the base-class methods (which are the
ones used by `NavigateEnv` and `NavigateRandomEnv`, neither of which
overrides them). -/
def NavigateEnv.get_state (em : ExternalMath) (cfg : Config) (phys : Phys)
    (collision_links : List ContactEvent) : Except PyExc Observation :=
  NavigateEnv.get_state_generic (NavigateEnv.get_additional_states em cfg phys)
    NavigateEnv.get_auxiliary_sensor cfg.output collision_links

/-- `NavigateEnv.run_simulation` (lines 336-341): step the physics for
`simulator_loop` sub-ticks and accumulate the contact tuples returned by
`p.getContactPoints` across the ticks (`collision_links += list(...)`).
The per-tick contact lists come from the physics engine. -/
def NavigateEnv.run_simulation (ticks : List (List ContactEvent)) : List ContactEvent :=
  ticks.foldl (fun collision_links tick => collision_links ++ tick) []

/-- The normalized potential `self.get_potential() / self.initial_potential`
computed at line 355. -/
def NavigateEnv.new_normalized_potential (em : ExternalMath) (cfg : Config) (phys : Phys)
    (ps : PotentialState) : ℚ :=
  NavigateEnv.get_potential em cfg phys / ps.initial_potential

/-- The potential-shaping summand of `NavigateEnv.get_reward`
(lines 355-358): `(normalized_potential - new_normalized_potential) *
potential_reward_weight`. -/
def NavigateEnv.potential_shaping_term (em : ExternalMath) (cfg : Config) (phys : Phys)
    (ps : PotentialState) : ℚ :=
  (ps.normalized_potential - NavigateEnv.new_normalized_potential em cfg phys ps) *
    cfg.potential_reward_weight

/-- The collision summand of `NavigateEnv.get_reward` (lines 369-371):
`1.0 * collision_reward_weight` when the set of this step's
`linkIndexA` values meets the configured `collision_links` set. -/
def NavigateEnv.collision_term (cfg : Config) (collision_links : List ContactEvent) : ℚ :=
  (if collision_links.any (fun elem => cfg.collision_links.contains elem.linkA)
    then (1:ℚ) else 0) * cfg.collision_reward_weight

/-- The success summand of `NavigateEnv.get_reward` (lines 374-375). -/
def NavigateEnv.success_term (em : ExternalMath) (cfg : Config) (phys : Phys) : ℚ :=
  if em.l2_distance cfg.target_pos (NavigateEnv.get_position_of_interest cfg phys) <
      cfg.dist_tol then
    cfg.success_reward
  else 0

/-- `NavigateEnv.get_reward` (lines 352-377).  The electricity and
stall-torque terms are the hardcoded `0.0` of lines 362 and 366; the
returned pair is the reward together with the updated shaping state
(`self.normalized_potential` is overwritten at line 359). -/
def NavigateEnv.get_reward (em : ExternalMath) (cfg : Config) (phys : Phys)
    (collision_links : List ContactEvent) (ps : PotentialState) : ℚ × PotentialState :=
  let reward := cfg.slack_reward
  let new_normalized_potential := NavigateEnv.new_normalized_potential em cfg phys ps
  let potential_reward := ps.normalized_potential - new_normalized_potential
  let reward := reward + potential_reward * cfg.potential_reward_weight
  let ps := { ps with normalized_potential := new_normalized_potential }
  let electricity_reward : ℚ := 0
  let reward := reward + electricity_reward * cfg.electricity_reward_weight
  let stall_torque_reward : ℚ := 0
  let reward := reward + stall_torque_reward * cfg.stall_torque_reward_weight
  let collision_reward : ℚ :=
    if collision_links.any (fun elem => cfg.collision_links.contains elem.linkA)
      then 1 else 0
  let reward := reward + collision_reward * cfg.collision_reward_weight
  let reward :=
    if em.l2_distance cfg.target_pos (NavigateEnv.get_position_of_interest cfg phys) <
        cfg.dist_tol then
      reward + cfg.success_reward
    else reward
  (reward, ps)

/-- The success condition of `NavigateEnv.get_termination` (line 384). -/
def NavigateEnv.success_condition (em : ExternalMath) (cfg : Config) (phys : Phys) : Prop :=
  em.l2_distance cfg.target_pos (NavigateEnv.get_position_of_interest cfg phys) < cfg.dist_tol

/-- The fatal ("robot flips over") condition of
`NavigateEnv.get_termination` (line 389): base height above `0.1`. -/
def NavigateEnv.fatal_condition (phys : Phys) : Prop :=
  phys.robot_pos.z > 1/10

/-- The timeout condition of `NavigateEnv.get_termination` (line 394)
against the already incremented step counter. -/
def NavigateEnv.timeout_condition (cfg : Config) (n : ℕ) : Prop :=
  (n : ℚ) ≥ cfg.max_step

/-- `NavigateEnv.get_termination` (lines 379-402): increment
`self.current_step`, then the `if/elif/elif` chain over success, fatal
and timeout; on a terminal step `info['episode_length']` records the
step counter.  Returns the new step counter, the done flag, and the
info dictionary. -/
def NavigateEnv.get_termination (em : ExternalMath) (cfg : Config) (phys : Phys)
    (current_step : ℕ) : ℕ × Bool × TermInfo :=
  let current_step := current_step + 1
  let di : Bool × TermInfo :=
    if em.l2_distance cfg.target_pos (NavigateEnv.get_position_of_interest cfg phys) <
        cfg.dist_tol then
      (true, { success := some true })
    else if phys.robot_pos.z > 1/10 then
      (true, { success := some false })
    else if (current_step : ℚ) ≥ cfg.max_step then
      (true, { success := some false })
    else
      (false, {})
  let info := if di.1 then { di.2 with episode_length := some current_step } else di.2
  (current_step, di.1, info)

/-- `NavigateEnv.reset` (lines 420-433): re-place the robot (a physics
side effect), take the fresh potential as `initial_potential`, set
`normalized_potential = 1.0` and `current_step = 0`, then build the
fresh observation with `get_state()` (empty contact list). -/
def NavigateEnv.reset (em : ExternalMath) (cfg : Config) (phys : Phys) :
    Except PyExc (PotentialState × ℕ × Observation) := do
  let initial_potential := NavigateEnv.get_potential em cfg phys
  let ps : PotentialState :=
    { initial_potential := initial_potential, normalized_potential := 1 }
  let state ← NavigateEnv.get_state em cfg phys []
  pure (ps, 0, state)

/-- `NavigateEnv.step` (lines 404-414): after the action is applied and
`run_simulation` has collected this step's contact tuples, build the
observation, compute the reward, evaluate termination, and on a
terminal step with `automatic_reset` stash the terminal observation and
replace it by a fresh `reset()`.  Returns the observation, reward, done
flag, info, and the updated shaping state and step counter. -/
def NavigateEnv.step (em : ExternalMath) (cfg : Config) (phys : Phys)
    (collision_links : List ContactEvent) (ps : PotentialState) (current_step : ℕ) :
    Except PyExc (Observation × ℚ × Bool × TermInfo × PotentialState × ℕ) := do
  let state ← NavigateEnv.get_state em cfg phys collision_links
  let (reward, ps) := NavigateEnv.get_reward em cfg phys collision_links ps
  let (current_step, done, info) := NavigateEnv.get_termination em cfg phys current_step
  if done ∧ cfg.automatic_reset then
    let info := { info with last_observation := some state }
    let (ps2, n2, state2) ← NavigateEnv.reset em cfg phys
    pure (state2, reward, done, info, ps2, n2)
  else
    pure (state, reward, done, info, ps, current_step)

/-- `InteractiveNavigateEnv.get_potential` (lines 689-699): the potential
function of the current stage — distance from end effector to door
handle, door opening angle against `-pi`, or distance from robot to
target. -/
def InteractiveNavigateEnv.get_potential (em : ExternalMath) (cfg : Config) (phys : Phys)
    (stage : Stage) : ℚ :=
  match stage with
  | Stage.get_to_door_handle => em.l2_distance phys.door_handle_pos phys.end_effector_pos
  | Stage.open_door => |phys.door_joint + np_pi|
  | Stage.get_to_target_pos => em.l2_distance cfg.target_pos phys.robot_pos

/-- The potential-shaping summand of the no-transition branch of
`InteractiveNavigateEnv.get_reward` (lines 709-711). -/
def InteractiveNavigateEnv.potential_shaping_term (em : ExternalMath) (cfg : Config)
    (phys : Phys) (stage : Stage) (ps : PotentialState) : ℚ :=
  (ps.normalized_potential -
      InteractiveNavigateEnv.get_potential em cfg phys stage / ps.initial_potential) *
    cfg.potential_reward_weight

/-- The clipped electricity summand of `InteractiveNavigateEnv.get_reward`
(lines 715-717): `np.clip(mean(|joint_speeds * joint_torque|) * weight,
-0.005, 0)`. -/
def InteractiveNavigateEnv.energy_term (cfg : Config) (phys : Phys) : ℚ :=
  np_clip
    (listMean (phys.joint_speeds.zipWith (fun s t => |s * t|) phys.joint_torque) *
      cfg.electricity_reward_weight)
    (-1/200) 0

/-- The clipped stall-torque summand of
`InteractiveNavigateEnv.get_reward` (lines 720-722):
`np.clip(mean(joint_torque^2) * weight, -0.005, 0)`. -/
def InteractiveNavigateEnv.stall_term (cfg : Config) (phys : Phys) : ℚ :=
  np_clip
    (listMean (phys.joint_torque.map (fun t => t * t)) * cfg.stall_torque_reward_weight)
    (-1/200) 0

/-- The collision summand of `InteractiveNavigateEnv.get_reward`
(lines 724-727): like the base collision term, but contacts whose second
body is the door's handle link are whitelisted before the set
intersection. -/
def InteractiveNavigateEnv.collision_term (cfg : Config) (phys : Phys)
    (collision_links : List ContactEvent) : ℚ :=
  (if collision_links.any (fun elem =>
      (!(elem.bodyB == phys.door_body_id && elem.linkB == door_handle_link_id)) &&
        cfg.collision_links.contains elem.linkA)
    then (1:ℚ) else 0) * cfg.collision_reward_weight

/-- The death-penalty magnitude of `InteractiveNavigateEnv.get_reward`
(lines 735-736): `success_reward` is subtracted when the base height
exceeds `0.1`. -/
def InteractiveNavigateEnv.death_term (cfg : Config) (phys : Phys) : ℚ :=
  if phys.robot_pos.z > 1/10 then cfg.success_reward else 0

/-- The sum of every summand of `InteractiveNavigateEnv.get_reward`
other than the stage-transition / potential-shaping alternative
(lines 715-737): clipped electricity, clipped stall torque, collision,
success bonus and death penalty. -/
def InteractiveNavigateEnv.non_potential_terms (em : ExternalMath) (cfg : Config)
    (phys : Phys) (collision_links : List ContactEvent) : ℚ :=
  InteractiveNavigateEnv.energy_term cfg phys +
    InteractiveNavigateEnv.stall_term cfg phys +
    InteractiveNavigateEnv.collision_term cfg phys collision_links +
    NavigateEnv.success_term em cfg phys -
    InteractiveNavigateEnv.death_term cfg phys

/-- `InteractiveNavigateEnv.get_reward` (lines 701-739): starting from
`reward = 0.0`, either the stage-transition branch (re-baseline the
tracker and add `success_reward / 2`) or the ordinary potential-shaping
branch, followed by the clipped electricity and stall-torque terms, the
whitelisted collision term, the success bonus and the death penalty.
Returns the reward together with the updated shaping state. -/
def InteractiveNavigateEnv.get_reward (em : ExternalMath) (cfg : Config) (phys : Phys)
    (stage prev_stage : Stage) (collision_links : List ContactEvent)
    (ps : PotentialState) : ℚ × PotentialState :=
  let reward : ℚ := 0
  let (reward, ps) :=
    if stage ≠ prev_stage then
      (reward + cfg.success_reward / 2,
        ({ initial_potential := InteractiveNavigateEnv.get_potential em cfg phys stage,
           normalized_potential := 1 } : PotentialState))
    else
      let new_normalized_potential :=
        InteractiveNavigateEnv.get_potential em cfg phys stage / ps.initial_potential
      let potential_reward := ps.normalized_potential - new_normalized_potential
      (reward + potential_reward * cfg.potential_reward_weight,
        { ps with normalized_potential := new_normalized_potential })
  let electricity_reward :=
    listMean (phys.joint_speeds.zipWith (fun s t => |s * t|) phys.joint_torque)
  let reward := reward +
    np_clip (electricity_reward * cfg.electricity_reward_weight) (-1/200) 0
  let stall_torque_reward := listMean (phys.joint_torque.map (fun t => t * t))
  let reward := reward +
    np_clip (stall_torque_reward * cfg.stall_torque_reward_weight) (-1/200) 0
  let collision_reward : ℚ :=
    if collision_links.any (fun elem =>
        (!(elem.bodyB == phys.door_body_id && elem.linkB == door_handle_link_id)) &&
          cfg.collision_links.contains elem.linkA)
      then 1 else 0
  let reward := reward + collision_reward * cfg.collision_reward_weight
  let reward :=
    if em.l2_distance cfg.target_pos (NavigateEnv.get_position_of_interest cfg phys) <
        cfg.dist_tol then
      reward + cfg.success_reward
    else reward
  let reward := if phys.robot_pos.z > 1/10 then reward - cfg.success_reward else reward
  (reward, ps)

/-- The stage-machine prefix of `InteractiveNavigateEnv.step`
(lines 662-687): record `prev_stage`, then two consecutive (not
mutually exclusive) `if` blocks — grab the door handle when the end
effector is within `0.2` of it (asserting `cid is None`, creating the
point-to-point constraint) and release it when the door joint has opened
past the configured `door_angle` threshold (asserting `cid is not None`,
removing the constraint).  The constraint handle returned by
`p.createConstraint` is modelled as `some 0`. -/
def InteractiveNavigateEnv.stage_transition (em : ExternalMath) (cfg : Config)
    (phys : Phys) (s : StageMachineState) : Except PyExc StageMachineState := do
  let dist := em.norm3 (Vec3.sub phys.door_handle_pos phys.end_effector_pos)
  let s := { s with prev_stage := s.stage }
  let s ←
    if s.stage = Stage.get_to_door_handle ∧ dist < 1/5 then
      match s.cid with
      | some _ =>
        (Except.error (.assertionError "self.cid is not None") : Except PyExc StageMachineState)
      | none => pure { s with cid := some 0, stage := Stage.open_door }
    else
      pure s
  let s ←
    if s.stage = Stage.open_door ∧ phys.door_joint < cfg.door_angle then
      match s.cid with
      | none =>
        (Except.error (.assertionError "self.cid is None") : Except PyExc StageMachineState)
      | some _ => pure { s with cid := none, stage := Stage.get_to_target_pos }
    else
      pure s
  pure s

/-- The state vector assembled by
`InteractiveNavigateEnv.get_additional_states` (lines 623-630) before
the dimension assertion: robot xy position, relative end-effector
position rotated into the body frame, yaw and door joint angle, with
`wrap_to_pi` applied to the entries at indices 5 and 6. -/
def InteractiveNavigateEnv.assembled_states (em : ExternalMath) (phys : Phys) : List ℚ :=
  let robot_position := [phys.robot_pos.x, phys.robot_pos.y]
  let end_effector_pos :=
    em.rotate_vector_3d (Vec3.sub phys.end_effector_pos phys.robot_pos)
      phys.roll phys.pitch phys.yaw
  let door_angle := phys.door_joint
  let additional_states :=
    robot_position ++ end_effector_pos.toList ++ [phys.yaw, door_angle]
  wrap_to_pi_q additional_states [5, 6]

/-- `InteractiveNavigateEnv.get_additional_states` (lines 623-632): the
assembled vector guarded by
`assert len(additional_states) == self.additional_states_dim`. -/
def InteractiveNavigateEnv.get_additional_states (em : ExternalMath) (cfg : Config)
    (phys : Phys) : Except PyExc (List ℚ) :=
  let additional_states := InteractiveNavigateEnv.assembled_states em phys
  if additional_states.length = cfg.additional_states_dim then
    .ok additional_states
  else
    .error (.assertionError "additional states dimension mismatch")

/-- `InteractiveNavigateEnv.get_auxiliary_sensor` (lines 634-660): a
42-entry vector assembled from slices of `calc_state()` (asserted to
have 46 entries), yaw trigonometry, the door-handle-in-hand flag, the
target position and the door/target positions in the local frame, with
`wrap_to_pi` applied at the arm-joint-angle indices
`np.arange(12, 27, 3) = [12, 15, 18, 21, 24]`.  The consecutive slice
assignments into `np.zeros(42)` tile the index range exactly, so the
vector is their concatenation. -/
def InteractiveNavigateEnv.get_auxiliary_sensor (em : ExternalMath) (cfg : Config)
    (phys : Phys) (stage : Stage) : Except PyExc (List ℚ) :=
  if cfg.auxiliary_sensor_dim = 42 then
    if phys.robot_state.length = 46 then
      let rs := phys.robot_state
      let cos_yaw := em.cos phys.yaw
      let sin_yaw := em.sin phys.yaw
      let has_door_handle_in_hand : ℚ := if stage = Stage.open_door then 1 else -1
      let door_pos : Vec3 := ⟨0, 0, -1/50⟩
      let robot_pos := phys.robot_pos
      let door_pos_local :=
        em.rotate_vector_3d (Vec3.sub door_pos robot_pos) phys.roll phys.pitch phys.yaw
      let target_pos_local :=
        em.rotate_vector_3d (Vec3.sub cfg.target_pos robot_pos)
          phys.roll phys.pitch phys.yaw
      let auxiliary_sensor :=
        rs.take 6 ++ (rs.drop 7).take 6 ++ (rs.drop 19).take 15 ++ (rs.drop 43).take 3 ++
          [cos_yaw, sin_yaw, has_door_handle_in_hand] ++
          cfg.target_pos.toList ++ door_pos_local.toList ++ target_pos_local.toList
      .ok (wrap_to_pi_q auxiliary_sensor [12, 15, 18, 21, 24])
    else
      .error (.assertionError "robot state dimension mismatch")
  else
    .error (.assertionError "auxiliary sensor dimension mismatch")

/-- Elementwise normalization of one observation channel (lines 612-618):
`(np.clip(v, obs_min, obs_max) - (obs_max+obs_min)/2) / ((obs_max-obs_min)/2)`. -/
def normalize_channel (lo hi : List ℚ) (v : List ℚ) : List ℚ :=
  (v.zip (lo.zip hi)).map (fun p =>
    (np_clip p.1 p.2.1 p.2.2 - (p.2.2 + p.2.1) / 2) / ((p.2.2 - p.2.1) / 2))

/-- `InteractiveNavigateEnv.get_state` (lines 608-621): the base
`get_state` body with the interactive overrides of
`get_additional_states` / `get_auxiliary_sensor`; the `super()` call
passes no contact list, so the base body sees the default
`collision_links=[]`.  If `normalize_observation` is set, each vector
channel is clipped and affinely mapped with its configured bounds (a
boolean `bump` channel under normalization would be coerced to a float
by numpy; no configuration in the repository combines the two, and no
claim touches that combination, so the boolean channel is carried
through unchanged here). -/
def InteractiveNavigateEnv.get_state (em : ExternalMath) (cfg : Config) (phys : Phys)
    (stage : Stage) : Except PyExc Observation := do
  let state ← NavigateEnv.get_state_generic
    (InteractiveNavigateEnv.get_additional_states em cfg phys)
    (InteractiveNavigateEnv.get_auxiliary_sensor em cfg phys stage)
    cfg.output []
  if cfg.normalize_observation then
    let norm := fun (ch : Channel) (v : List ℚ) =>
      normalize_channel (cfg.observation_normalizer ch).1 (cfg.observation_normalizer ch).2 v
    pure { state with
      sensor := state.sensor.map (norm Channel.sensor)
      auxiliary_sensor := state.auxiliary_sensor.map (norm Channel.auxiliary_sensor)
      pointgoal := state.pointgoal.map (norm Channel.pointgoal) }
  else
    pure state

/-- `InteractiveNavigateEnv.reset_interactive_objects` (lines 566-570):
zero the door joint (`p.resetJointState(..., targetValue=0.0,
targetVelocity=0.0)`, a physics side effect) and remove the constraint
if one is held, clearing `self.cid`. -/
def InteractiveNavigateEnv.reset_interactive_objects (phys : Phys) (cid : Option ℕ) :
    Phys × Option ℕ :=
  let phys := { phys with door_joint := 0, door_joint_vel := 0 }
  match cid with
  | some _ => (phys, none)
  | none => (phys, cid)

/-- `InteractiveNavigateEnv.reset` (lines 598-602) together with the
inherited `NavigateEnv.reset` body it calls (lines 420-433): clear the
interactive objects, reset both stage fields to the start stage, re-place
the robot (physics side; the settling sub-ticks are external), take the
fresh potential of the start stage as `initial_potential`, set
`normalized_potential = 1.0` and `current_step = 0`, and build the fresh
observation.  Returns the stage machine, shaping state, step counter,
the physics state after the reset commands, and the observation. -/
def InteractiveNavigateEnv.reset (em : ExternalMath) (cfg : Config) (phys : Phys)
    (ms : StageMachineState) :
    Except PyExc (StageMachineState × PotentialState × ℕ × Phys × Observation) := do
  let (phys, cid) := InteractiveNavigateEnv.reset_interactive_objects phys ms.cid
  let ms : StageMachineState :=
    { stage := Stage.get_to_door_handle, prev_stage := Stage.get_to_door_handle, cid := cid }
  let initial_potential := InteractiveNavigateEnv.get_potential em cfg phys ms.stage
  let ps : PotentialState :=
    { initial_potential := initial_potential, normalized_potential := 1 }
  let state ← InteractiveNavigateEnv.get_state em cfg phys ms.stage
  pure (ms, ps, 0, phys, state)

/-- `InteractiveNavigateEnv.step` (lines 662-687) with the inherited
`NavigateEnv.step` body it tail-calls (lines 404-414), using the
interactive overrides of `get_state` / `get_reward` and the inherited
`get_termination`: run the stage-machine prefix, then (after the action
and the physics sub-ticks that produce `collision_links`) observation,
reward, termination and the optional automatic reset. -/
def InteractiveNavigateEnv.step (em : ExternalMath) (cfg : Config) (phys : Phys)
    (collision_links : List ContactEvent) (ms : StageMachineState)
    (ps : PotentialState) (current_step : ℕ) :
    Except PyExc
      (Observation × ℚ × Bool × TermInfo × StageMachineState × PotentialState × ℕ) := do
  let ms ← InteractiveNavigateEnv.stage_transition em cfg phys ms
  let state ← InteractiveNavigateEnv.get_state em cfg phys ms.stage
  let (reward, ps) :=
    InteractiveNavigateEnv.get_reward em cfg phys ms.stage ms.prev_stage collision_links ps
  let (current_step, done, info) := NavigateEnv.get_termination em cfg phys current_step
  if done ∧ cfg.automatic_reset then
    let info := { info with last_observation := some state }
    let (ms2, ps2, n2, _phys2, state2) ← InteractiveNavigateEnv.reset em cfg phys ms
    pure (state2, reward, done, info, ms2, ps2, n2)
  else
    pure (state, reward, done, info, ms, ps, current_step)

/-- A concrete instantiation of the external numeric routines used to
evaluate the embedding on closed inputs: the taxicab distance and norm,
the identity rotation, and constant trigonometric stubs. -/
def emT : ExternalMath :=
  { l2_distance := fun a b => |a.x - b.x| + |a.y - b.y| + |a.z - b.z|
    rotate_vector_3d := fun v _ _ _ => v
    norm3 := fun v => |v.x| + |v.y| + |v.z|
    cos := fun _ => 1
    sin := fun _ => 0 }

/-- A concrete configuration with the source's default values
(`target_pos=[5,5,0]`, `dist_tol=0.2`, `success_reward=10.0`,
`slack_reward=-0.01`, `potential_reward_weight=10.0`, the other weights
zero, `collision_links=[-1]`) and a finite `max_step`. -/
def cfgT : Config :=
  { target_pos := ⟨5, 5, 0⟩
    dist_tol := 1/5
    max_step := 100
    success_reward := 10
    slack_reward := -1/100
    potential_reward_weight := 10
    electricity_reward_weight := 0
    stall_torque_reward_weight := 0
    collision_reward_weight := 0
    collision_links := [-1]
    task := TaskKind.pointgoal
    additional_states_dim := 3
    auxiliary_sensor_dim := 42
    output := []
    normalize_observation := false
    observation_normalizer := fun _ => ([], [])
    door_angle := -(90/180 : ℚ) * np_pi
    automatic_reset := false }

/-- `cfgT` with the 7-dimensional interactive state vector. -/
def cfgI : Config :=
  { cfgT with additional_states_dim := 7 }

/-- `cfgT` with a state-vector dimension that no task assembles. -/
def cfgBadDim : Config :=
  { cfgT with additional_states_dim := 5 }

/-- A concrete physics readout: robot at the origin at rest, door
closed, all joints still. -/
def physT : Phys :=
  { robot_pos := ⟨0, 0, 0⟩
    end_effector_pos := ⟨0, 0, 0⟩
    roll := 0
    pitch := 0
    yaw := 0
    joint_speeds := [0]
    joint_torque := [0]
    robot_state := List.replicate 46 0
    door_joint := 0
    door_joint_vel := 0
    door_handle_pos := ⟨0, 0, 0⟩
    door_body_id := 7 }

/-- `physT` with the door swung well past the opening threshold. -/
def physC6 : Phys :=
  { physT with door_joint := -2 }

/-- `physT` with the robot one unit from `cfgT`'s target and above the
fatal height. -/
def physC2 : Phys :=
  { physT with robot_pos := ⟨5, 5, 1⟩ }

/-- `physT` with the robot one unit from `cfgT`'s target. -/
def physC8 : Phys :=
  { physT with robot_pos := ⟨4, 5, 0⟩ }

/-- A contact tuple whose `linkIndexA` is the robot base link `-1`. -/
def evBase : ContactEvent :=
  { flag := 0, bodyA := 0, bodyB := 1, linkA := -1, linkB := 3 }

/-- The per-step reward formula the spec asserts for every task
variant: the slack term plus the stage-milestone / potential-shaping
alternative plus the energy, stall-torque, collision, success and
failure terms.  Written from the spec's words, to be compared with the
code's `get_reward`. -/
def spec_per_step_scalar_interactive (em : ExternalMath) (cfg : Config) (phys : Phys)
    (stage prev_stage : Stage) (collision_links : List ContactEvent)
    (ps : PotentialState) : ℚ :=
  cfg.slack_reward +
    (if stage ≠ prev_stage then cfg.success_reward / 2
      else InteractiveNavigateEnv.potential_shaping_term em cfg phys stage ps) +
    InteractiveNavigateEnv.energy_term cfg phys +
    InteractiveNavigateEnv.stall_term cfg phys +
    InteractiveNavigateEnv.collision_term cfg phys collision_links +
    NavigateEnv.success_term em cfg phys -
    InteractiveNavigateEnv.death_term cfg phys

/-- The length of a `mapWithIndex` image. -/
theorem length_mapWithIndex (f : ℕ → ℚ → ℚ) (i : ℕ) (l : List ℚ) :
    (mapWithIndex f i l).length = l.length := by
  induction l generalizing i with
  | nil => rfl
  | cons x xs ih => simp [mapWithIndex, ih]

/-- `wrap_to_pi_q` touches values, never the shape. -/
theorem length_wrap_to_pi_q (l : List ℚ) (idx : List ℕ) :
    (wrap_to_pi_q l idx).length = l.length :=
  length_mapWithIndex _ _ _

/-- Binding a raised exception short-circuits the rest of the body. -/
theorem except_error_bind {α β : Type} (e : PyExc) (f : α → Except PyExc β) :
    (Except.error e >>= f) = Except.error e := rfl

/-- Whatever the sensor source yields, the unconditional call to the
base `get_auxiliary_sensor` makes the base `get_state` body raise. -/
theorem get_state_generic_base_aux_error (sensor_src : Except PyExc (List ℚ))
    (output : List Channel) (collision_links : List ContactEvent) :
    ∃ e, NavigateEnv.get_state_generic sensor_src NavigateEnv.get_auxiliary_sensor
      output collision_links = .error e := by
  cases sensor_src with
  | error e => exact ⟨e, rfl⟩
  | ok v => exact ⟨.typeError "exceptions must derive from BaseException", rfl⟩

/-- C1: in the base navigation environment (`NavigateEnv` and its
random-placement subclass, which override neither `get_auxiliary_sensor`
nor `get_state`), every `get_state` call raises — its unconditional call
to `get_auxiliary_sensor` executes a `raise` on a numpy array, which the
interpreter turns into a `TypeError` — and therefore every `step` and
every `reset`, both of which invoke `get_state`, raises as well and
never returns an observation. -/
theorem C1_base_env_always_raises (em : ExternalMath) (cfg : Config) (phys : Phys) :
    (∀ collision_links, ∃ e,
      NavigateEnv.get_state em cfg phys collision_links = .error e) ∧
    (∃ e, NavigateEnv.reset em cfg phys = .error e) ∧
    (∀ collision_links ps current_step, ∃ e,
      NavigateEnv.step em cfg phys collision_links ps current_step = .error e) := by
  refine ⟨fun collision_links => ?_, ?_, fun collision_links ps current_step => ?_⟩
  · exact get_state_generic_base_aux_error _ _ _
  · obtain ⟨e, he⟩ :=
      get_state_generic_base_aux_error (NavigateEnv.get_additional_states em cfg phys)
        cfg.output []
    exact ⟨e, by simp [NavigateEnv.reset, NavigateEnv.get_state, he, except_error_bind]⟩
  · obtain ⟨e, he⟩ :=
      get_state_generic_base_aux_error (NavigateEnv.get_additional_states em cfg phys)
        cfg.output collision_links
    exact ⟨e, by simp [NavigateEnv.step, NavigateEnv.get_state, he, except_error_bind]⟩

/-- C2: `get_termination` increments the step counter and evaluates the
three terminal causes in the fixed priority order success, fatal,
timeout, first match winning; in particular success and fatal holding
together yields success.  Non-terminal steps return not-done with an
empty info dictionary; terminal steps record the success flag and the
episode length. -/
theorem C2_termination_priority (em : ExternalMath) (cfg : Config) (phys : Phys) (n : ℕ) :
    (NavigateEnv.get_termination em cfg phys n).1 = n + 1 ∧
    (NavigateEnv.success_condition em cfg phys →
      (NavigateEnv.get_termination em cfg phys n).2.1 = true ∧
      (NavigateEnv.get_termination em cfg phys n).2.2.success = some true) ∧
    (¬ NavigateEnv.success_condition em cfg phys → NavigateEnv.fatal_condition phys →
      (NavigateEnv.get_termination em cfg phys n).2.1 = true ∧
      (NavigateEnv.get_termination em cfg phys n).2.2.success = some false) ∧
    (¬ NavigateEnv.success_condition em cfg phys → ¬ NavigateEnv.fatal_condition phys →
      NavigateEnv.timeout_condition cfg (n + 1) →
      (NavigateEnv.get_termination em cfg phys n).2.1 = true ∧
      (NavigateEnv.get_termination em cfg phys n).2.2.success = some false) ∧
    (¬ NavigateEnv.success_condition em cfg phys → ¬ NavigateEnv.fatal_condition phys →
      ¬ NavigateEnv.timeout_condition cfg (n + 1) →
      (NavigateEnv.get_termination em cfg phys n).2.1 = false ∧
      (NavigateEnv.get_termination em cfg phys n).2.2 = ({} : TermInfo)) ∧
    ((NavigateEnv.get_termination em cfg phys n).2.1 = true →
      (NavigateEnv.get_termination em cfg phys n).2.2.episode_length = some (n + 1) ∧
      ((NavigateEnv.get_termination em cfg phys n).2.2.success = some true ∨
        (NavigateEnv.get_termination em cfg phys n).2.2.success = some false)) := by
  unfold NavigateEnv.get_termination NavigateEnv.success_condition
    NavigateEnv.fatal_condition NavigateEnv.timeout_condition
  dsimp only
  split_ifs with h1 h2 h3 <;> simp_all

/-- C2 witness: with the taxicab externals, the target right at the
robot and the robot base raised above the fatal height, success and
fatal hold together and the outcome is done-with-success. -/
theorem C2_witness :
    (NavigateEnv.get_termination emT { cfgT with target_pos := ⟨5, 5, 1⟩ } physC2 0).2.1 =
      true ∧
    (NavigateEnv.get_termination emT { cfgT with target_pos := ⟨5, 5, 1⟩ } physC2 0).2.2.success =
      some true :=
  (C2_termination_priority emT { cfgT with target_pos := ⟨5, 5, 1⟩ } physC2 0).2.1
    (by norm_num [NavigateEnv.success_condition, NavigateEnv.get_position_of_interest,
      emT, cfgT, physC2, physT])

/-- C3: in the multi-stage variant, on every step on which the stage
machine moved (`stage != prev_stage`), `get_reward` re-baselines the
potential tracker — `initial_potential` is the new stage's potential and
`normalized_potential` is `1.0` — and the reward of that step is exactly
`success_reward / 2` plus the non-shaping summands, the ordinary
potential-shaping term being replaced by the half success bonus. -/
theorem C3_transition_rebaseline (em : ExternalMath) (cfg : Config) (phys : Phys)
    (stage prev_stage : Stage) (collision_links : List ContactEvent) (ps : PotentialState)
    (h : stage ≠ prev_stage) :
    (InteractiveNavigateEnv.get_reward em cfg phys stage prev_stage collision_links ps).2 =
      { initial_potential := InteractiveNavigateEnv.get_potential em cfg phys stage,
        normalized_potential := 1 } ∧
    (InteractiveNavigateEnv.get_reward em cfg phys stage prev_stage collision_links ps).1 =
      cfg.success_reward / 2 +
        InteractiveNavigateEnv.non_potential_terms em cfg phys collision_links := by
  unfold InteractiveNavigateEnv.get_reward InteractiveNavigateEnv.non_potential_terms
    InteractiveNavigateEnv.energy_term InteractiveNavigateEnv.stall_term
    InteractiveNavigateEnv.collision_term InteractiveNavigateEnv.death_term
    NavigateEnv.success_term
  dsimp only
  rw [if_pos h]
  dsimp only
  constructor
  · rfl
  · split_ifs <;> ring

/-- C3 witness: a concrete transition from the door-handle stage to the
door-opening stage with the taxicab externals. -/
theorem C3_witness :
    (InteractiveNavigateEnv.get_reward emT cfgT physT Stage.open_door
        Stage.get_to_door_handle [] ⟨1, 1⟩).2 =
      { initial_potential :=
          InteractiveNavigateEnv.get_potential emT cfgT physT Stage.open_door,
        normalized_potential := 1 } ∧
    (InteractiveNavigateEnv.get_reward emT cfgT physT Stage.open_door
        Stage.get_to_door_handle [] ⟨1, 1⟩).1 =
      cfgT.success_reward / 2 +
        InteractiveNavigateEnv.non_potential_terms emT cfgT physT [] :=
  C3_transition_rebaseline emT cfgT physT Stage.open_door Stage.get_to_door_handle []
    ⟨1, 1⟩ (by decide)

/-- C4: the `bump` channel is computed as `-1 in collision_links`, but
the collected `collision_links` hold whole contact tuples (that is what
`run_simulation` accumulates and what `get_reward` indexes with
`elem[3]`), and in Python an integer never equals a tuple; so the
channel is `False` on every step — including a step whose sub-ticks
report a contact with `linkIndexA = -1`, where the claim (and the code
comment "check collision for baselink") require `True`. -/
theorem C4_bump_never_true :
    (∀ links, py_int_in_contacts (-1) links = false) ∧
    NavigateEnv.run_simulation [[evBase]] = [evBase] ∧
    evBase.linkA = -1 ∧
    NavigateEnv.get_state_generic (.ok []) (.ok []) [Channel.bump]
        (NavigateEnv.run_simulation [[evBase]]) =
      .ok { bump := some false } := by
  refine ⟨fun links => ?_, rfl, rfl, rfl⟩
  simp [py_int_in_contacts, py_int_eq_contact]

/-- C5 counterexample: a config whose declared state dimension matches
no task's assembled vector passes `load` without complaint (there is no
dimension check at load time), and only the later observation assembly
in `get_additional_states` — invoked from `get_state` during `reset` and
`step` — raises the assertion. -/
theorem C5_counterexample :
    NavigateEnv.load cfgBadDim =
      { additional_states_dim := 5, auxiliary_sensor_dim := 42,
        sensor_dim := 5, sensor_space_shape := 5 } ∧
    NavigateEnv.get_additional_states emT cfgBadDim physT =
      .error (.assertionError "additional states dimension mismatch") := by
  exact ⟨rfl, rfl⟩

/-- C5 (amended): whenever `get_additional_states` returns, the
assembled state vector has exactly the configured
`additional_states_dim` entries (in both the base and the interactive
variant); a configuration violating the equality makes
`get_additional_states` — and hence the first `get_state` issued by
`reset` or `step` — fail with the dimension-mismatch assertion, while
`load` performs no such check and always succeeds. -/
theorem C5_dimension_at_observation (em : ExternalMath) (cfg : Config) (phys : Phys) :
    (∀ l, NavigateEnv.get_additional_states em cfg phys = .ok l →
      l.length = cfg.additional_states_dim) ∧
    (∀ l, InteractiveNavigateEnv.get_additional_states em cfg phys = .ok l →
      l.length = cfg.additional_states_dim) ∧
    ((NavigateEnv.assembled_states em cfg phys).length ≠ cfg.additional_states_dim →
      NavigateEnv.get_additional_states em cfg phys =
        .error (.assertionError "additional states dimension mismatch")) ∧
    ((InteractiveNavigateEnv.assembled_states em phys).length ≠ cfg.additional_states_dim →
      InteractiveNavigateEnv.get_additional_states em cfg phys =
        .error (.assertionError "additional states dimension mismatch")) ∧
    NavigateEnv.load cfg =
      { additional_states_dim := cfg.additional_states_dim
        auxiliary_sensor_dim := cfg.auxiliary_sensor_dim
        sensor_dim := cfg.additional_states_dim
        sensor_space_shape := cfg.additional_states_dim } := by
  refine ⟨fun l hl => ?_, fun l hl => ?_, fun hne => ?_, fun hne => ?_, rfl⟩
  · unfold NavigateEnv.get_additional_states at hl
    dsimp only at hl
    split at hl
    · rename_i hcond
      injection hl with hl
      subst hl
      exact hcond
    · exact absurd hl (by simp)
  · unfold InteractiveNavigateEnv.get_additional_states at hl
    dsimp only at hl
    split at hl
    · rename_i hcond
      injection hl with hl
      subst hl
      exact hcond
    · exact absurd hl (by simp)
  · unfold NavigateEnv.get_additional_states
    dsimp only
    rw [if_neg hne]
  · unfold InteractiveNavigateEnv.get_additional_states
    dsimp only
    rw [if_neg hne]

/-- C5 witness: the default pointgoal config assembles a 3-entry vector
and declares dimension 3, so the observation succeeds with the right
length; the 5-dimensional variant fails at the assembly assertion. -/
theorem C5_witness :
    (NavigateEnv.assembled_states emT cfgT physT).length = cfgT.additional_states_dim ∧
    NavigateEnv.get_additional_states emT cfgBadDim physT =
      .error (.assertionError "additional states dimension mismatch") :=
  ⟨(C5_dimension_at_observation emT cfgT physT).1 _ rfl,
    (C5_dimension_at_observation emT cfgBadDim physT).2.2.1 (by decide)⟩

/-- Binding a returned value applies the rest of the body to it. -/
theorem except_ok_bind {α β : Type} (a : α) (f : α → Except PyExc β) :
    (Except.ok a >>= f) = f a := rfl

/-- `pure` in the exception monad is a normal return. -/
theorem except_pure {α : Type} (a : α) : (pure a : Except PyExc α) = Except.ok a := rfl

/-- The stage-machine prefix of `step` never decreases the stage,
advances it by at most two, and records the pre-step stage as
`prev_stage`. -/
theorem stage_transition_monotone (em : ExternalMath) (cfg : Config) (phys : Phys)
    (s s' : StageMachineState)
    (h : InteractiveNavigateEnv.stage_transition em cfg phys s = .ok s') :
    s.stage.idx ≤ s'.stage.idx ∧ s'.stage.idx ≤ s.stage.idx + 2 ∧
    s'.prev_stage = s.stage := by
  obtain ⟨st, pv, cid⟩ := s
  unfold InteractiveNavigateEnv.stage_transition at h
  dsimp only at h
  split at h
  · rename_i h1
    obtain ⟨hst, _⟩ := h1
    cases cid with
    | some c => simp [except_error_bind] at h
    | none =>
      simp only [except_pure, except_ok_bind] at h
      split at h
      · first
        | (simp only [except_pure, except_ok_bind] at h; injection h with h)
        | injection h with h
        subst h
        subst hst
        simp [Stage.idx]
      · first
        | (simp only [except_pure, except_ok_bind] at h; injection h with h)
        | injection h with h
        subst h
        subst hst
        simp [Stage.idx]
  · rename_i h1
    simp only [except_pure, except_ok_bind] at h
    split at h
    · rename_i h2
      obtain ⟨hst, _⟩ := h2
      cases cid with
      | some c =>
        first
        | (simp only [except_pure, except_ok_bind] at h; injection h with h)
        | injection h with h
        subst h
        subst hst
        simp [Stage.idx]
      | none => simp [except_error_bind] at h
    · first
      | (simp only [except_pure, except_ok_bind] at h; injection h with h)
      | injection h with h
      subst h
      simp [Stage.idx]

/-- C6 counterexample: from the start stage, a step whose readout
satisfies both transition predicates at once (end effector within 0.2 of
the handle, door joint already past the opening threshold) advances the
stage machine by two in a single `step` call, because the two transition
blocks are consecutive `if`s, not `elif`s. -/
theorem C6_counterexample :
    InteractiveNavigateEnv.stage_transition emT cfgT physC6
        ⟨Stage.get_to_door_handle, Stage.get_to_door_handle, none⟩ =
      .ok ⟨Stage.get_to_target_pos, Stage.get_to_door_handle, none⟩ ∧
    Stage.get_to_target_pos.idx = Stage.get_to_door_handle.idx + 2 := by
  constructor
  · norm_num [InteractiveNavigateEnv.stage_transition, emT, cfgT, physC6, physT, np_pi,
      Vec3.sub, except_ok_bind, except_error_bind, except_pure]
  · rfl

/-- C6 (amended): across the step calls of one episode (no automatic
reset), the stage index never decreases and follows the order
get_to_door_handle, open_door, get_to_target_pos with no cycles;
`prev_stage` always records the pre-step stage.  A single step call may
however advance the stage by up to two — both transition predicates can
fire in the same call — so "by at most one" does not hold. -/
theorem C6_stage_monotone (em : ExternalMath) (cfg : Config) (phys : Phys)
    (collision_links : List ContactEvent) (ms : StageMachineState) (ps : PotentialState)
    (n : ℕ)
    (r : Observation × ℚ × Bool × TermInfo × StageMachineState × PotentialState × ℕ)
    (hauto : cfg.automatic_reset = false)
    (h : InteractiveNavigateEnv.step em cfg phys collision_links ms ps n = .ok r) :
    ms.stage.idx ≤ r.2.2.2.2.1.stage.idx ∧
    r.2.2.2.2.1.stage.idx ≤ ms.stage.idx + 2 ∧
    r.2.2.2.2.1.prev_stage = ms.stage := by
  unfold InteractiveNavigateEnv.step at h
  cases hst : InteractiveNavigateEnv.stage_transition em cfg phys ms with
  | error e => rw [hst] at h; simp [except_error_bind] at h
  | ok ms2 =>
    rw [hst] at h
    simp only [except_ok_bind] at h
    cases hgs : InteractiveNavigateEnv.get_state em cfg phys ms2.stage with
    | error e => rw [hgs] at h; simp [except_error_bind] at h
    | ok state =>
      rw [hgs] at h
      simp only [except_ok_bind] at h
      rcases hR : InteractiveNavigateEnv.get_reward em cfg phys ms2.stage ms2.prev_stage
          collision_links ps with ⟨reward, ps2⟩
      rw [hR] at h
      rcases hT : NavigateEnv.get_termination em cfg phys n with ⟨n2, done, info⟩
      rw [hT] at h
      dsimp only at h
      rw [hauto] at h
      simp only [and_false, Bool.false_eq_true, if_false, except_pure] at h
      injection h with h
      subst h
      exact stage_transition_monotone em cfg phys ms ms2 hst

/-- C6 witness: a concrete successful step from the start stage with the
end effector on the handle moves the machine one stage forward. -/
theorem C6_witness :
    Stage.get_to_door_handle.idx ≤ Stage.open_door.idx ∧
    Stage.open_door.idx ≤ Stage.get_to_door_handle.idx + 2 ∧
    Stage.get_to_door_handle = Stage.get_to_door_handle := by
  have h : InteractiveNavigateEnv.step emT cfgI physT []
      ⟨Stage.get_to_door_handle, Stage.get_to_door_handle, none⟩ ⟨1, 1⟩ 0 =
      .ok (({} : Observation), 5, false, ({} : TermInfo),
        ⟨Stage.open_door, Stage.get_to_door_handle, some 0⟩, ⟨np_pi, 1⟩, 1) := by
    have hne : Stage.open_door ≠ Stage.get_to_door_handle := by decide
    norm_num [hne, abs_eq_self, InteractiveNavigateEnv.step, InteractiveNavigateEnv.stage_transition,
      InteractiveNavigateEnv.get_state, NavigateEnv.get_state_generic,
      InteractiveNavigateEnv.get_additional_states, InteractiveNavigateEnv.assembled_states,
      InteractiveNavigateEnv.get_auxiliary_sensor, InteractiveNavigateEnv.get_reward,
      InteractiveNavigateEnv.get_potential, NavigateEnv.get_termination,
      NavigateEnv.get_position_of_interest, listMean, np_clip, length_wrap_to_pi_q,
      except_ok_bind, except_error_bind, except_pure, emT, cfgI, cfgT, physT, np_pi,
      Vec3.sub, Vec3.toList]
  exact C6_stage_monotone emT cfgI physT [] _ _ 0 _ rfl h

/-- C7 counterexample: at the real input `pi` the wrap lands on `-pi`
itself, which is outside the claimed half-open interval `(-pi, pi]`
(the function's range is the other half-open interval). -/
theorem C7_counterexample :
    wrap_to_pi Real.pi = -Real.pi ∧ ¬(-Real.pi < wrap_to_pi Real.pi) := by
  have h : wrap_to_pi Real.pi = -Real.pi := by
    have h2 : (Real.pi + Real.pi) / (Real.pi * 2) = 1 := by
      rw [div_eq_one_iff_eq (by positivity)]
      ring
    unfold wrap_to_pi
    rw [h2, Int.floor_one]
    push_cast
    ring
  exact ⟨h, by rw [h]; exact lt_irrefl _⟩

/-- C7 (amended): `wrap_to_pi` shifts every real input by an integer
multiple of `2*pi` into the half-open interval `[-pi, pi)` — closed at
`-pi`, open at `pi` — rather than the claimed `(-pi, pi]`. -/
theorem C7_wrap_to_pi_range (x : ℝ) :
    (∃ k : ℤ, wrap_to_pi x = x - 2 * Real.pi * k) ∧
    -Real.pi ≤ wrap_to_pi x ∧ wrap_to_pi x < Real.pi := by
  refine ⟨⟨⌊(x + Real.pi) / (Real.pi * 2)⌋, by unfold wrap_to_pi; ring⟩, ?_, ?_⟩ <;>
  · have hpi : (0:ℝ) < Real.pi * 2 := by positivity
    have h1 : ((⌊(x + Real.pi) / (Real.pi * 2)⌋ : ℝ)) ≤ (x + Real.pi) / (Real.pi * 2) :=
      Int.floor_le _
    have h2 : (x + Real.pi) / (Real.pi * 2) < ⌊(x + Real.pi) / (Real.pi * 2)⌋ + 1 :=
      Int.lt_floor_add_one _
    have h3 : (⌊(x + Real.pi) / (Real.pi * 2)⌋ : ℝ) * (Real.pi * 2) ≤ x + Real.pi :=
      (le_div_iff₀ hpi).1 h1
    have h4 : x + Real.pi < ((⌊(x + Real.pi) / (Real.pi * 2)⌋ : ℝ) + 1) * (Real.pi * 2) :=
      (div_lt_iff₀ hpi).1 h2
    unfold wrap_to_pi
    nlinarith

/-- C8: between two consecutive steps with no stage transition, if the
position of interest strictly decreased its distance to the goal (the
previous potential `prev_pot` is what the tracker's
`normalized_potential` was computed from), then the potential-shaping
term of `get_reward` on the later step is strictly positive, in the base
environment as well as in the interactive one; and `get_reward`'s
returned scalar indeed contains that term as a summand in both
variants. -/
theorem C8_shaping_positive (em : ExternalMath) (cfg : Config) (phys : Phys)
    (ps : PotentialState) (prev_pot : ℚ) (stage : Stage)
    (collision_links : List ContactEvent)
    (hinit : 0 < ps.initial_potential)
    (hw : 0 < cfg.potential_reward_weight)
    (hnorm : ps.normalized_potential = prev_pot / ps.initial_potential) :
    (NavigateEnv.get_potential em cfg phys < prev_pot →
      0 < NavigateEnv.potential_shaping_term em cfg phys ps) ∧
    (InteractiveNavigateEnv.get_potential em cfg phys stage < prev_pot →
      0 < InteractiveNavigateEnv.potential_shaping_term em cfg phys stage ps) ∧
    (NavigateEnv.get_reward em cfg phys collision_links ps).1 =
      cfg.slack_reward + NavigateEnv.potential_shaping_term em cfg phys ps +
        0 * cfg.electricity_reward_weight + 0 * cfg.stall_torque_reward_weight +
        NavigateEnv.collision_term cfg collision_links +
        NavigateEnv.success_term em cfg phys ∧
    (InteractiveNavigateEnv.get_reward em cfg phys stage stage collision_links ps).1 =
      InteractiveNavigateEnv.potential_shaping_term em cfg phys stage ps +
        InteractiveNavigateEnv.non_potential_terms em cfg phys collision_links := by
  refine ⟨fun hdec => ?_, fun hdec => ?_, ?_, ?_⟩
  · unfold NavigateEnv.potential_shaping_term NavigateEnv.new_normalized_potential
    rw [hnorm, ← sub_div]
    exact mul_pos (div_pos (sub_pos.2 hdec) hinit) hw
  · unfold InteractiveNavigateEnv.potential_shaping_term
    rw [hnorm, ← sub_div]
    exact mul_pos (div_pos (sub_pos.2 hdec) hinit) hw
  · unfold NavigateEnv.get_reward NavigateEnv.potential_shaping_term
      NavigateEnv.new_normalized_potential NavigateEnv.collision_term
      NavigateEnv.success_term
    dsimp only
    split_ifs <;> ring
  · unfold InteractiveNavigateEnv.get_reward InteractiveNavigateEnv.potential_shaping_term
      InteractiveNavigateEnv.non_potential_terms InteractiveNavigateEnv.energy_term
      InteractiveNavigateEnv.stall_term InteractiveNavigateEnv.collision_term
      InteractiveNavigateEnv.death_term NavigateEnv.success_term
    dsimp only
    rw [if_neg (fun hne => hne rfl : ¬ stage ≠ stage)]
    dsimp only
    split_ifs <;> ring

/-- C8 witness: the robot moved from distance 2 to distance 1 towards
the default target; with baseline 4 the shaping term is positive. -/
theorem C8_witness :
    0 < NavigateEnv.potential_shaping_term emT cfgT physC8 ⟨4, 1/2⟩ :=
  (C8_shaping_positive emT cfgT physC8 ⟨4, 1/2⟩ 2 Stage.get_to_target_pos []
      (by norm_num) (by norm_num [cfgT]) (by norm_num)).1
    (by norm_num [NavigateEnv.get_potential, NavigateEnv.get_position_of_interest,
      emT, cfgT, physC8, physT])

/-- C9 counterexample: under conditions making every non-slack summand
vanish and no stage transition, the interactive `get_reward` returns the
bare shaping value `-90`, while the spec's per-step formula — which
includes the slack term in every variant — gives `-90.01`; the
interactive variant never adds the slack term. -/
theorem C9_counterexample :
    (InteractiveNavigateEnv.get_reward emT cfgT physT Stage.get_to_target_pos
        Stage.get_to_target_pos [] ⟨1, 1⟩).1 = -90 ∧
    spec_per_step_scalar_interactive emT cfgT physT Stage.get_to_target_pos
        Stage.get_to_target_pos [] ⟨1, 1⟩ = -9001/100 ∧
    (-90 : ℚ) ≠ -9001/100 := by
  refine ⟨?_, ?_, by norm_num⟩
  · norm_num [InteractiveNavigateEnv.get_reward, InteractiveNavigateEnv.get_potential,
      NavigateEnv.get_position_of_interest, listMean, np_clip, emT, cfgT, physT, Vec3.sub]
  · norm_num [spec_per_step_scalar_interactive,
      InteractiveNavigateEnv.potential_shaping_term, InteractiveNavigateEnv.get_potential,
      InteractiveNavigateEnv.energy_term, InteractiveNavigateEnv.stall_term,
      InteractiveNavigateEnv.collision_term, InteractiveNavigateEnv.death_term,
      NavigateEnv.success_term, NavigateEnv.get_position_of_interest, listMean, np_clip,
      emT, cfgT, physT, Vec3.sub]

/-- C9 (amended): the base `get_reward` is exactly the claimed sum —
slack plus shaping plus the (hardcoded-zero) energy and stall terms plus
collision plus success bonus; the interactive `get_reward` is the spec's
per-step formula minus its slack term, i.e. the sum of the
stage-milestone / shaping alternative, the clipped energy and
stall-torque terms, the collision term, the success bonus and the death
penalty, with no slack summand. -/
theorem C9_reward_decomposition (em : ExternalMath) (cfg : Config) (phys : Phys)
    (stage prev_stage : Stage) (collision_links : List ContactEvent)
    (ps : PotentialState) :
    (NavigateEnv.get_reward em cfg phys collision_links ps).1 =
      cfg.slack_reward + NavigateEnv.potential_shaping_term em cfg phys ps +
        0 * cfg.electricity_reward_weight + 0 * cfg.stall_torque_reward_weight +
        NavigateEnv.collision_term cfg collision_links +
        NavigateEnv.success_term em cfg phys ∧
    (InteractiveNavigateEnv.get_reward em cfg phys stage prev_stage collision_links ps).1 =
      spec_per_step_scalar_interactive em cfg phys stage prev_stage collision_links ps -
        cfg.slack_reward := by
  constructor
  · unfold NavigateEnv.get_reward NavigateEnv.potential_shaping_term
      NavigateEnv.new_normalized_potential NavigateEnv.collision_term
      NavigateEnv.success_term
    dsimp only
    split_ifs <;> ring
  · unfold InteractiveNavigateEnv.get_reward spec_per_step_scalar_interactive
      InteractiveNavigateEnv.potential_shaping_term InteractiveNavigateEnv.energy_term
      InteractiveNavigateEnv.stall_term InteractiveNavigateEnv.collision_term
      InteractiveNavigateEnv.death_term NavigateEnv.success_term
    dsimp only
    split_ifs <;> first
      | ring
      | (dsimp only; ring)

/-- C10: after every `reset()` of the interactive environment that
returns, whatever the prior episode's state: both stage fields are the
start stage, `normalized_potential` is `1.0`, the step counter is `0`,
the constraint handle is cleared, and the door joint state (position and
velocity) is zeroed. -/
theorem C10_reset_reinitializes (em : ExternalMath) (cfg : Config) (phys : Phys)
    (ms : StageMachineState)
    (r : StageMachineState × PotentialState × ℕ × Phys × Observation)
    (h : InteractiveNavigateEnv.reset em cfg phys ms = .ok r) :
    r.1.stage = Stage.get_to_door_handle ∧
    r.1.prev_stage = Stage.get_to_door_handle ∧
    r.1.cid = none ∧
    r.2.1.normalized_potential = 1 ∧
    r.2.2.1 = 0 ∧
    r.2.2.2.1.door_joint = 0 ∧
    r.2.2.2.1.door_joint_vel = 0 := by
  unfold InteractiveNavigateEnv.reset InteractiveNavigateEnv.reset_interactive_objects at h
  dsimp only at h
  cases hcid : ms.cid with
  | some c =>
    rw [hcid] at h
    dsimp only at h
    cases hgs : InteractiveNavigateEnv.get_state em cfg
        { phys with door_joint := 0, door_joint_vel := 0 } Stage.get_to_door_handle with
    | error e => rw [hgs] at h; simp [except_error_bind] at h
    | ok state =>
      rw [hgs] at h
      simp only [except_ok_bind, except_pure] at h
      injection h with h
      subst h
      exact ⟨rfl, rfl, rfl, rfl, rfl, rfl, rfl⟩
  | none =>
    rw [hcid] at h
    dsimp only at h
    cases hgs : InteractiveNavigateEnv.get_state em cfg
        { phys with door_joint := 0, door_joint_vel := 0 } Stage.get_to_door_handle with
    | error e => rw [hgs] at h; simp [except_error_bind] at h
    | ok state =>
      rw [hgs] at h
      simp only [except_ok_bind, except_pure] at h
      injection h with h
      subst h
      exact ⟨rfl, rfl, rfl, rfl, rfl, rfl, rfl⟩

/-- C10 witness: a concrete reset from mid-episode state (door-opening
stage, constraint held) lands back in the fresh start state. -/
theorem C10_witness :
    InteractiveNavigateEnv.reset emT cfgI physT ⟨Stage.open_door, Stage.open_door, some 3⟩ =
      .ok (⟨Stage.get_to_door_handle, Stage.get_to_door_handle, none⟩, ⟨0, 1⟩, 0, physT,
        ({} : Observation)) ∧
    (⟨Stage.get_to_door_handle, Stage.get_to_door_handle, none⟩ : StageMachineState).cid =
      none := by
  have h : InteractiveNavigateEnv.reset emT cfgI physT
      ⟨Stage.open_door, Stage.open_door, some 3⟩ =
      .ok (⟨Stage.get_to_door_handle, Stage.get_to_door_handle, none⟩, ⟨0, 1⟩, 0, physT,
        ({} : Observation)) := by
    norm_num [InteractiveNavigateEnv.reset, InteractiveNavigateEnv.reset_interactive_objects,
      InteractiveNavigateEnv.get_state, NavigateEnv.get_state_generic,
      InteractiveNavigateEnv.get_additional_states, InteractiveNavigateEnv.assembled_states,
      InteractiveNavigateEnv.get_auxiliary_sensor, InteractiveNavigateEnv.get_potential,
      length_wrap_to_pi_q, except_ok_bind, except_error_bind, except_pure,
      emT, cfgI, cfgT, physT, Vec3.sub, Vec3.toList]
  exact ⟨h, (C10_reset_reinitializes emT cfgI physT _ _ h).2.2.1⟩
